import Mathlib

/-!
Verification of the MacroLog serving-allocation solver pipeline
(`calculate_servings` in `accounts/views.py`) against its specification.

The embedding below translates the pipeline into Lean: Django model rows
become plain structures over ℚ, the request payload becomes explicit data,
and the scipy `minimize` call becomes an oracle `Problem → SolveResult`
(the problem record captures exactly what the view hands to the solver:
variables, bounds, initial guess, constraint list, objective, maxiter).
-/

namespace MealLog

/-- A `foods.models.Food` row: id, name, the three per-serving gram
coefficients, the serving label, and the active flag. -/
structure Food where
  id : Nat
  name : String
  protein : ℚ
  carbs : ℚ
  fats : ℚ
  servingName : String
  isActive : Bool
deriving DecidableEq, Repr

/-- The slice of an `accounts.models.Person` row the view reads: the three
daily gram targets, each nullable (`DecimalField(null=True)`). -/
structure Person where
  proteinGrams : Option ℚ
  carbsGrams : Option ℚ
  fatsGrams : Option ℚ
deriving DecidableEq, Repr

/-- One element of the request's breakfast/lunch arrays.  `entry fid s` is a
dict with `food_id` and `servings` keys; `s = none` models a servings value
`float(...)` rejects with `ValueError`.  `notDict` models an element that is
not a dict or lacks one of the two keys. -/
inductive MealItem where
  | entry (foodId : Nat) (servings : Option ℚ)
  | notDict
deriving DecidableEq, Repr

/-- One element of the request's dinner array: an int food id, or a
non-int element (skipped by the `isinstance(food_id, int)` guard). -/
inductive DinnerItem where
  | intId (id : Nat)
  | notInt
deriving DecidableEq, Repr

/-- The decoded JSON request body. -/
structure Request where
  breakfast : List MealItem
  lunch : List MealItem
  dinner : List DinnerItem
deriving DecidableEq, Repr

/-- The error responses `calculate_servings` can produce, in source order:
scipy missing, targets unset, JSON decode failure, empty dinner selection,
no dinner id resolving to an active food, the supplements-only guard, and a
failed solve carrying the solver's diagnostic message. -/
inductive CalcError where
  | scipyUnavailable
  | missingTargets
  | invalidJson
  | emptyDinner
  | noValidDinnerFoods
  | onlySupplements
  | optimizationFailed (msg : String)
deriving DecidableEq, Repr

/-- Python truthiness of a nullable Decimal field: `not x` is true when the
field is NULL or holds the value zero. -/
def decimalFalsy : Option ℚ → Bool
  | none => true
  | some v => v == 0

/-- The guard `not person.protein_grams or not person.carbs_grams or not
person.fats_grams` (views.py line 50). -/
def targetsMissing (p : Person) : Bool :=
  decimalFalsy p.proteinGrams || decimalFalsy p.carbsGrams || decimalFalsy p.fatsGrams

/-- A fresh primary key for a row Django would auto-create. -/
def freshId (db : List Food) : Nat :=
  (db.map (fun f => f.id)).foldl max 0 + 1

/-- The `defaults` of the Protein Powder `get_or_create` (views.py 59-69). -/
def proteinPowderDefaults (db : List Food) : Food :=
  ⟨freshId db, "Protein Powder", 25, 3, 1, "1 scoop", true⟩

/-- The `defaults` of the Heavy Cream `get_or_create` (views.py 71-81). -/
def heavyCreamDefaults (db : List Food) : Food :=
  ⟨freshId db, "Heavy Cream", 1, 1, 11, "1 oz (about 2 tbsp)", true⟩

/-- Django's `Food.objects.get_or_create(name=...)`: return the existing row of that
name, else insert the defaults row and return it. -/
def getOrCreate (db : List Food) (f : Food) : Food × List Food :=
  match db.find? (fun g => g.name == f.name) with
  | some g => (g, db)
  | none => (f, db ++ [f])

/-- Both supplement `get_or_create` calls in order: the resolved Protein
Powder row, the resolved Heavy Cream row, and the catalog after both. -/
def suppFoods (db0 : List Food) : Food × Food × List Food :=
  let ppDb := getOrCreate db0 (proteinPowderDefaults db0)
  let hcDb := getOrCreate ppDb.2 (heavyCreamDefaults ppDb.2)
  (ppDb.1, hcDb.1, hcDb.2)

/-- The catalog after the two supplement `get_or_create` calls. -/
def dbWithSupps (db0 : List Food) : List Food :=
  (suppFoods db0).2.2

/-- Django's `Food.objects.get(id=food_id, is_active=True)`, `None` for DoesNotExist. -/
def lookupActive (db : List Food) (fid : Nat) : Option Food :=
  db.find? (fun f => f.id == fid && f.isActive)

/-- One iteration of the breakfast/lunch parsing loops (views.py 89-104):
a well-formed item whose food resolves and whose servings parse yields a
(food, servings) pair; everything else is skipped (`continue`). -/
def parseMealItem (db : List Food) : MealItem → Option (Food × ℚ)
  | MealItem.entry fid (some s) => (lookupActive db fid).map (fun f => (f, s))
  | _ => none

/-- The breakfast/lunch parsing loops: keep the items that resolve. -/
def parseMeal (db : List Food) (items : List MealItem) : List (Food × ℚ) :=
  items.filterMap (parseMealItem db)

/-- The dinner parsing loop (views.py 107-112): keep the int elements. -/
def parseDinnerIds (items : List DinnerItem) : List Nat :=
  items.filterMap (fun it =>
    match it with
    | DinnerItem.intId n => some n
    | DinnerItem.notInt => none)

/-- A (protein, carbs, fats) gram triple. -/
structure Triple where
  protein : ℚ
  carbs : ℚ
  fats : ℚ
deriving DecidableEq, Repr

def Triple.zero : Triple := ⟨0, 0, 0⟩

def Triple.add (a b : Triple) : Triple :=
  ⟨a.protein + b.protein, a.carbs + b.carbs, a.fats + b.fats⟩

/-- The grams a given number of servings of a food contributes. -/
def gramsOf (f : Food) (s : ℚ) : Triple :=
  ⟨s * f.protein, s * f.carbs, s * f.fats⟩

/-- The consumed-totals loop over breakfast + lunch pairs (views.py 115-122). -/
def consumedTotals (l : List (Food × ℚ)) : Triple :=
  l.foldl (fun acc p => acc.add (gramsOf p.1 p.2)) Triple.zero

/-- Constraint kinds as the scipy `constraints` dicts tag them. -/
inductive CKind where
  | eqC
  | ineqC
deriving DecidableEq, Repr

/-- The `for i, food in enumerate(all_foods): total += servings[i] * coeff`
accumulation shared by the three constraint closures (views.py 171-188). -/
def selSum (foods : List Food) (sel : Food → ℚ) (x : List ℚ) : ℚ :=
  foods.enum.foldl (fun acc p => acc + x.getD p.1 0 * sel p.2) 0

/-- The closure `constraint_protein` (views.py 171-175): total protein minus target. -/
def constraint_protein (foods : List Food) (target : ℚ) (x : List ℚ) : ℚ :=
  selSum foods (fun f => f.protein) x - target

/-- The closure `constraint_carbs_max` (views.py 177-182): target minus total carbs. -/
def constraint_carbs_max (foods : List Food) (target : ℚ) (x : List ℚ) : ℚ :=
  target - selSum foods (fun f => f.carbs) x

/-- The closure `constraint_fats` (views.py 184-188): total fats minus target. -/
def constraint_fats (foods : List Food) (target : ℚ) (x : List ℚ) : ℚ :=
  selSum foods (fun f => f.fats) x - target

/-- The `objective` closure (views.py 164-168): the 1000-weight supplement
penalty, and nothing else. -/
def objectiveFn (ppIdx hcIdx : Nat) (x : List ℚ) : ℚ :=
  1000 * (x.getD ppIdx 0 + x.getD hcIdx 0)

/-- Everything the view hands to `scipy.optimize.minimize` (views.py
146-213): the variable list `all_foods`, the two supplement indices, the
remaining targets, the objective and constraint closures, the initial
guess, the bounds, and the iteration cap. -/
structure Problem where
  allFoods : List Food
  ppIdx : Nat
  hcIdx : Nat
  targetProtein : ℚ
  targetCarbs : ℚ
  targetFats : ℚ
  objective : List ℚ → ℚ
  constraints : List (CKind × (List ℚ → ℚ))
  x0 : List ℚ
  bounds : List (ℚ × Option ℚ)
  maxiter : Nat

/-- Assembling the optimization problem exactly as views.py 146-213 does. -/
def mkProblem (dinnerFoods : List Food) (pp hc : Food) (tp tc tf : ℚ) : Problem :=
  let allFoods := dinnerFoods ++ [pp, hc]
  { allFoods := allFoods
    ppIdx := dinnerFoods.length
    hcIdx := dinnerFoods.length + 1
    targetProtein := tp
    targetCarbs := tc
    targetFats := tf
    objective := objectiveFn dinnerFoods.length (dinnerFoods.length + 1)
    constraints := [(CKind.eqC, constraint_protein allFoods tp),
                    (CKind.ineqC, constraint_carbs_max allFoods tc),
                    (CKind.eqC, constraint_fats allFoods tf)]
    x0 := List.replicate allFoods.length ((1 : ℚ) / 2)
    bounds := List.replicate allFoods.length ((0 : ℚ), (none : Option ℚ))
    maxiter := 1000 }

/-- What the view reads off the scipy result object. -/
structure SolveResult where
  success : Bool
  message : String
  x : List ℚ

/-- One formatted row of the breakfast/lunch/dinner breakdown arrays. -/
structure FoodLine where
  foodId : Nat
  foodName : String
  servings : ℚ
  servingName : String
  protein : ℚ
  carbs : ℚ
  fats : ℚ
deriving DecidableEq, Repr

/-- One formatted row of the supplements array. -/
structure SuppLine where
  name : String
  servings : ℚ
  servingName : String
  protein : ℚ
  carbs : ℚ
  fats : ℚ
deriving DecidableEq, Repr

/-- The fallback `food.serving_name or "serving"`. -/
def servingLabel (f : Food) : String :=
  if f.servingName == "" then "serving" else f.servingName

def mkFoodLine (f : Food) (s : ℚ) : FoodLine :=
  ⟨f.id, f.name, s, servingLabel f, s * f.protein, s * f.carbs, s * f.fats⟩

/-- The breakfast/lunch formatting loops (views.py 229-268): every pair is
accumulated into the slot total and appended to the breakdown,
unconditionally. -/
def fixedSection (items : List (Food × ℚ)) : Triple × List FoodLine :=
  items.foldl
    (fun acc p => (acc.1.add (gramsOf p.1 p.2), acc.2 ++ [mkFoodLine p.1 p.2]))
    (Triple.zero, [])

/-- The `> 0.001` display threshold. -/
def zeroThreshold : ℚ := 1 / 1000

/-- The dinner formatting loop (views.py 271-292): for each dinner index,
the solved serving is accumulated and shown only when it exceeds the
threshold. -/
def dinnerSection (dinnerFoods : List Food) (x : List ℚ) : Triple × List FoodLine :=
  dinnerFoods.enum.foldl
    (fun acc p =>
      let s := x.getD p.1 0
      if zeroThreshold < s then (acc.1.add (gramsOf p.2 s), acc.2 ++ [mkFoodLine p.2 s])
      else acc)
    (Triple.zero, [])

/-- One supplement block (views.py 298-332): when the solved serving
exceeds the threshold it is added to the dinner total and appended to the
supplements array, else both are left unchanged. -/
def suppSection (tot : Triple) (supps : List SuppLine) (displayName : String)
    (f : Food) (s : ℚ) : Triple × List SuppLine :=
  if zeroThreshold < s then
    (tot.add (gramsOf f s),
     supps ++ [⟨displayName, s, servingLabel f, s * f.protein, s * f.carbs, s * f.fats⟩])
  else (tot, supps)

/-- The JSON the view returns on success (views.py 219-373). -/
structure Results where
  breakfast : List FoodLine
  lunch : List FoodLine
  dinner : List FoodLine
  supplements : List SuppLine
  breakfastTotal : Triple
  breakfastGoal : Triple
  lunchTotal : Triple
  lunchGoal : Triple
  dinnerTotal : Triple
  dinnerGoal : Triple
  dailyTotals : Triple
  dailyGoals : Triple
deriving DecidableEq, Repr

/-- The result-formatting tail of the view (views.py 219-371). -/
def formatResults (tp tc tf : ℚ) (bl ll : List (Food × ℚ)) (dinnerFoods : List Food)
    (pp hc : Food) (rp rc rf : ℚ) (x : List ℚ) : Results :=
  let bSec := fixedSection bl
  let lSec := fixedSection ll
  let dSec := dinnerSection dinnerFoods x
  let ppServings := x.getD dinnerFoods.length 0
  let hcServings := x.getD (dinnerFoods.length + 1) 0
  let afterPP := suppSection dSec.1 [] "Protein Powder" pp ppServings
  let afterHC := suppSection afterPP.1 afterPP.2 "Heavy Cream" hc hcServings
  { breakfast := bSec.2
    lunch := lSec.2
    dinner := dSec.2
    supplements := afterHC.2
    breakfastTotal := bSec.1
    breakfastGoal := ⟨tp / 3, tc / 3, tf / 3⟩
    lunchTotal := lSec.1
    lunchGoal := ⟨tp / 3, tc / 3, tf / 3⟩
    dinnerTotal := afterHC.1
    dinnerGoal := ⟨rp, rc, rf⟩
    dailyTotals := (bSec.1.add lSec.1).add afterHC.1
    dailyGoals := ⟨tp, tc, tf⟩ }

/-- The whole view `calculate_servings` (views.py 39-376), with the scipy
call abstracted as the `solver` oracle.  Guards appear in source order. -/
def calculate_servings (solver : Problem → SolveResult) (scipyAvailable : Bool)
    (db0 : List Food) (person : Person) (body : Option Request) :
    Except CalcError Results :=
  if !scipyAvailable then Except.error CalcError.scipyUnavailable
  else if targetsMissing person then Except.error CalcError.missingTargets
  else
    match body with
    | none => Except.error CalcError.invalidJson
    | some req =>
      let pp := (suppFoods db0).1
      let hc := (suppFoods db0).2.1
      let db := (suppFoods db0).2.2
      let bl := parseMeal db req.breakfast
      let ll := parseMeal db req.lunch
      let dinnerIds := parseDinnerIds req.dinner
      let consumed := consumedTotals (bl ++ ll)
      let tp := person.proteinGrams.getD 0
      let tc := person.carbsGrams.getD 0
      let tf := person.fatsGrams.getD 0
      let rp := tp - consumed.protein
      let rc := tc - consumed.carbs
      let rf := tf - consumed.fats
      if dinnerIds.isEmpty then Except.error CalcError.emptyDinner
      else
        let dinnerFoods := dinnerIds.filterMap (lookupActive db)
        if dinnerFoods.isEmpty then Except.error CalcError.noValidDinnerFoods
        else if (dinnerFoods ++ [pp, hc]).length == 2 then
          Except.error CalcError.onlySupplements
        else
          let res := solver (mkProblem dinnerFoods pp hc rp rc rf)
          if res.success then
            Except.ok (formatResults tp tc tf bl ll dinnerFoods pp hc rp rc rf res.x)
          else Except.error (CalcError.optimizationFailed res.message)

/-! ## Further definitions used by the verification

Comparison definitions written from the spec's words, a named form of the
problem the view builds, small Boolean observers, and the concrete sample
data the closed theorems below evaluate the pipeline on. -/

deriving instance DecidableEq for Except

/-- Population variance of three numbers, squares written with `*`. -/
def popVariance3 (a b c : ℚ) : ℚ :=
  ((a - (a + b + c) / 3) * (a - (a + b + c) / 3)
    + (b - (a + b + c) / 3) * (b - (a + b + c) / 3)
    + (c - (a + b + c) / 3) * (c - (a + b + c) / 3)) / 3

/-- The grand total (protein + carbs + fats) one serving of a food adds. -/
def grandTotal (f : Food) : ℚ := f.protein + f.carbs + f.fats

/-- The balance-across-meals objective as the spec words it (section 4.1),
for the configuration the code would use it in - every selected food in the
single solved slot, the other two slots empty: per-slot grand totals with
each supplement's servings split into three equal contributions, the
population variance of the three slot totals, plus the 1000-weight
supplement penalty.  This definition follows the spec's words, not the
code; it exists only to be compared against the code's objective. -/
def specBalanceObjective (dinnerFoods : List Food) (pp hc : Food) (x : List ℚ) : ℚ :=
  let suppGrand := x.getD dinnerFoods.length 0 * grandTotal pp
    + x.getD (dinnerFoods.length + 1) 0 * grandTotal hc
  let dinnerGrand := (dinnerFoods.enum.map (fun p => x.getD p.1 0 * grandTotal p.2)).sum
  popVariance3 (suppGrand / 3) (suppGrand / 3) (dinnerGrand + suppGrand / 3)
    + 1000 * (x.getD dinnerFoods.length 0 + x.getD (dinnerFoods.length + 1) 0)

/-- The optimization problem `calculate_servings` builds for a given
catalog, person and request, named so theorems can speak about it. -/
def builtProblem (db0 : List Food) (person : Person) (req : Request) : Problem :=
  mkProblem (List.filterMap (lookupActive (suppFoods db0).2.2) (parseDinnerIds req.dinner))
    (suppFoods db0).1 (suppFoods db0).2.1
    (person.proteinGrams.getD 0
      - (consumedTotals (parseMeal (suppFoods db0).2.2 req.breakfast
          ++ parseMeal (suppFoods db0).2.2 req.lunch)).protein)
    (person.carbsGrams.getD 0
      - (consumedTotals (parseMeal (suppFoods db0).2.2 req.breakfast
          ++ parseMeal (suppFoods db0).2.2 req.lunch)).carbs)
    (person.fatsGrams.getD 0
      - (consumedTotals (parseMeal (suppFoods db0).2.2 req.breakfast
          ++ parseMeal (suppFoods db0).2.2 req.lunch)).fats)

/-- True exactly on a success response. -/
def exceptIsOk : Except CalcError Results → Bool
  | Except.ok _ => true
  | Except.error _ => false

/-- True exactly on the supplements-only rejection. -/
def isOnlySupplementsError : Except CalcError Results → Bool
  | Except.error CalcError.onlySupplements => true
  | _ => false

/-- A solver oracle that always fails with a recognizable diagnostic. -/
def probeSolver : Problem → SolveResult := fun _ => ⟨false, "probe", []⟩

/-- A solver oracle that succeeds with one serving of the first food. -/
def okSolver : Problem → SolveResult := fun _ => ⟨true, "", [1, 0, 0]⟩

/-- Sample dinner food with grand total 10. -/
def sampleDinnerFood : Food := ⟨3, "Chicken", 10, 0, 0, "100 g", true⟩

def c4Food : Food := ⟨5, "Salmon", 10, 2, 6, "1 fillet", true⟩

def c4Db : List Food := [c4Food]

/-- A solver oracle returning a serving below the display threshold. -/
def c4Solver : Problem → SolveResult := fun _ => ⟨true, "", [1 / 2000, 0, 0]⟩

def c4Person : Person := ⟨some 100, some 50, some 70⟩

def c4Request : Request := ⟨[], [], [DinnerItem.intId 5]⟩

def c5BreakfastFood : Food := ⟨7, "Eggs", 50, 0, 0, "", true⟩

def c5Db : List Food := [c4Food, c5BreakfastFood]

def c5Solver : Problem → SolveResult := fun _ => ⟨true, "", [1, 0, 0]⟩

def c5Person : Person := ⟨some 90, some 30, some 60⟩

def c5Request : Request := ⟨[MealItem.entry 7 (some 1)], [], [DinnerItem.intId 5]⟩

/-- A catalog already holding the two supplement rows as ordinary active
foods, so a dinner selection can consist of exactly those two. -/
def c6Db : List Food :=
  [⟨1, "Protein Powder", 25, 3, 1, "1 scoop", true⟩,
   ⟨2, "Heavy Cream", 1, 1, 11, "1 oz (about 2 tbsp)", true⟩]

def c6Person : Person := ⟨some 100, some 40, some 80⟩

def c6Request : Request := ⟨[], [], [DinnerItem.intId 1, DinnerItem.intId 2]⟩

def c9Person : Person := ⟨some 10, some 20, some 30⟩

/-- A request whose breakfast entry references the unknown food id 99. -/
def c9Request : Request := ⟨[MealItem.entry 99 (some 1)], [], [DinnerItem.intId 5]⟩

/-! ## Helper lemmas -/

theorem selSum_go (sel : Food → ℚ) (x : List ℚ) :
    ∀ (foods : List Food) (n : Nat) (acc : ℚ), n + foods.length ≤ x.length →
      List.foldl (fun a p => a + x.getD p.1 0 * sel p.2) acc (List.enumFrom n foods)
        = acc + (List.zipWith (fun s f => s * sel f) (List.drop n x) foods).sum := by
  intro foods
  induction foods with
  | nil => intro n acc _; simp
  | cons f fs ih =>
      intro n acc h
      have hn : n < x.length := by
        simp only [List.length_cons] at h
        omega
      have hdrop : List.drop n x = x[n] :: List.drop (n + 1) x :=
        List.drop_eq_getElem_cons hn
      have hgd : x.getD n 0 = x[n] := List.getD_eq_getElem x 0 hn
      rw [List.enumFrom_cons, List.foldl_cons, ih (n + 1) _ (by simp at h ⊢; omega),
        hdrop, List.zipWith_cons_cons, List.sum_cons, hgd]
      ring

theorem selSum_eq_zipWith (foods : List Food) (sel : Food → ℚ) (x : List ℚ)
    (h : foods.length ≤ x.length) :
    selSum foods sel x = (List.zipWith (fun s f => s * sel f) x foods).sum := by
  have := selSum_go sel x foods 0 0 (by omega)
  simpa [selSum, List.enum] using this

theorem getD_set_ne (x : List ℚ) (i n : Nat) (v : ℚ) (h : i ≠ n) :
    (x.set i v).getD n 0 = x.getD n 0 := by
  simp [List.getD_eq_getD_get?, List.get?_eq_getElem?, List.getElem?_set_ne h]

theorem dinnerSection_go (x : List ℚ) :
    ∀ (foods : List Food) (n : Nat) (t0 : Triple) (ls0 : List FoodLine),
      List.foldl
          (fun acc p =>
            let s := x.getD p.1 0
            if zeroThreshold < s then (acc.1.add (gramsOf p.2 s), acc.2 ++ [mkFoodLine p.2 s])
            else acc)
          (t0, ls0) (List.enumFrom n foods)
        = (((List.enumFrom n foods).filter
              (fun p => decide (zeroThreshold < x.getD p.1 0))).foldl
             (fun t p => t.add (gramsOf p.2 (x.getD p.1 0))) t0,
           ls0 ++ ((List.enumFrom n foods).filter
              (fun p => decide (zeroThreshold < x.getD p.1 0))).map
             (fun p => mkFoodLine p.2 (x.getD p.1 0))) := by
  intro foods
  induction foods with
  | nil => intro n t0 ls0; simp
  | cons f fs ih =>
      intro n t0 ls0
      rw [List.enumFrom_cons, List.foldl_cons, List.filter_cons]
      by_cases hc : zeroThreshold < x.getD n 0
      · simp only [List.foldl_cons, List.filter_cons, decide_eq_true_eq, if_pos hc, ih,
          List.map_cons, List.cons_append, List.append_assoc, List.singleton_append,
          List.nil_append]
      · simp only [List.foldl_cons, List.filter_cons, decide_eq_true_eq, if_neg hc, ih]

theorem tripleFoldSum (proj : Triple → ℚ)
    (hproj : ∀ a b : Triple, proj (a.add b) = proj a + proj b) :
    ∀ (l : List (Nat × Food)) (g : Nat × Food → Triple) (t0 : Triple),
      proj (l.foldl (fun t p => t.add (g p)) t0)
        = proj t0 + (l.map (fun p => proj (g p))).sum := by
  intro l
  induction l with
  | nil => intro g t0; simp
  | cons p ps ih =>
      intro g t0
      rw [List.foldl_cons, List.map_cons, List.sum_cons, ih, hproj]
      ring

theorem dinnerSection_filtered (dinnerFoods : List Food) (x : List ℚ) :
    dinnerSection dinnerFoods x
      = ((dinnerFoods.enum.filter
            (fun p => decide (zeroThreshold < x.getD p.1 0))).foldl
           (fun t p => t.add (gramsOf p.2 (x.getD p.1 0))) Triple.zero,
         (dinnerFoods.enum.filter
            (fun p => decide (zeroThreshold < x.getD p.1 0))).map
           (fun p => mkFoodLine p.2 (x.getD p.1 0))) := by
  have := dinnerSection_go x dinnerFoods 0 Triple.zero []
  simpa [dinnerSection, List.enum] using this

/-! ## Claim theorems -/

/-- Claim C1: for every solve request that reaches the numerical
optimization, the problem handed to the solver has one variable per food
(the dinner foods plus the two supplements), each bounded below by 0 with
no upper bound, exactly the constraint list [protein equality, carbs
inequality, fats equality] whose functions are total protein minus target,
target carbs minus total carbs, and total fats minus target, and an
initial guess of 0.5 servings per variable. -/
theorem c1_problem_shape (dinnerFoods : List Food) (pp hc : Food) (tp tc tf : ℚ) :
    (mkProblem dinnerFoods pp hc tp tc tf).allFoods = dinnerFoods ++ [pp, hc]
    ∧ (mkProblem dinnerFoods pp hc tp tc tf).bounds
        = List.replicate (dinnerFoods.length + 2) ((0 : ℚ), (none : Option ℚ))
    ∧ (mkProblem dinnerFoods pp hc tp tc tf).x0
        = List.replicate (dinnerFoods.length + 2) ((1 : ℚ) / 2)
    ∧ (mkProblem dinnerFoods pp hc tp tc tf).constraints.map Prod.fst
        = [CKind.eqC, CKind.ineqC, CKind.eqC]
    ∧ ∀ x : List ℚ, x.length = dinnerFoods.length + 2 →
        ((mkProblem dinnerFoods pp hc tp tc tf).constraints.getD 0 (CKind.eqC, fun _ => 0)).2 x
            = (List.zipWith (fun s f => s * f.protein) x (dinnerFoods ++ [pp, hc])).sum - tp
        ∧ ((mkProblem dinnerFoods pp hc tp tc tf).constraints.getD 1 (CKind.eqC, fun _ => 0)).2 x
            = tc - (List.zipWith (fun s f => s * f.carbs) x (dinnerFoods ++ [pp, hc])).sum
        ∧ ((mkProblem dinnerFoods pp hc tp tc tf).constraints.getD 2 (CKind.eqC, fun _ => 0)).2 x
            = (List.zipWith (fun s f => s * f.fats) x (dinnerFoods ++ [pp, hc])).sum - tf := by
  refine ⟨by simp [mkProblem], by simp [mkProblem], by simp [mkProblem],
    by simp [mkProblem], ?_⟩
  intro x hx
  refine ⟨?_, ?_, ?_⟩
  · show constraint_protein (dinnerFoods ++ [pp, hc]) tp x = _
    rw [constraint_protein, selSum_eq_zipWith _ _ _ (by simp [hx])]
  · show constraint_carbs_max (dinnerFoods ++ [pp, hc]) tc x = _
    rw [constraint_carbs_max, selSum_eq_zipWith _ _ _ (by simp [hx])]
  · show constraint_fats (dinnerFoods ++ [pp, hc]) tf x = _
    rw [constraint_fats, selSum_eq_zipWith _ _ _ (by simp [hx])]

/-- Claim C2: the objective evaluated by the solver is exactly
1000 x (protein-powder servings + heavy-cream servings) for every serving
vector, and it depends on nothing but the two supplement coordinates - it
has no balance or variance term and no other term. -/
theorem c2_objective_is_supplement_penalty (dinnerFoods : List Food) (pp hc : Food)
    (tp tc tf : ℚ) (x : List ℚ) :
    (mkProblem dinnerFoods pp hc tp tc tf).objective x
        = 1000 * (x.getD dinnerFoods.length 0 + x.getD (dinnerFoods.length + 1) 0)
    ∧ ∀ y : List ℚ,
        x.getD dinnerFoods.length 0 = y.getD dinnerFoods.length 0 →
        x.getD (dinnerFoods.length + 1) 0 = y.getD (dinnerFoods.length + 1) 0 →
        (mkProblem dinnerFoods pp hc tp tc tf).objective x
          = (mkProblem dinnerFoods pp hc tp tc tf).objective y := by
  constructor
  · rfl
  · intro y h1 h2
    show objectiveFn _ _ x = objectiveFn _ _ y
    rw [objectiveFn, objectiveFn, h1, h2]

/-- Claim C3 counterexample: with breakfast and lunch empty (all slots
effectively solved together) and one dinner food of grand total 10, the
code's objective at the serving vector [1, 0, 0] is 0, while the spec's
balance objective there is 200/9 - the code's objective has no variance
term. -/
theorem c3_counterexample_no_variance_term :
    (mkProblem [sampleDinnerFood] (proteinPowderDefaults [sampleDinnerFood])
        (heavyCreamDefaults [sampleDinnerFood]) 10 0 0).objective [1, 0, 0] = 0
    ∧ specBalanceObjective [sampleDinnerFood] (proteinPowderDefaults [sampleDinnerFood])
        (heavyCreamDefaults [sampleDinnerFood]) [1, 0, 0] = 200 / 9
    ∧ (0 : ℚ) ≠ 200 / 9 := by
  refine ⟨by decide!, by decide!, by norm_num⟩

/-- Claim C3 amended: the code has no balance-across-meals mode - even when
breakfast and lunch are empty so all slots are in effect solved at once,
the objective is only the 1000-weight supplement penalty, and changing any
dinner-food serving (which would change the spec's slot variance) leaves
the objective unchanged. -/
theorem c3_amended_objective_has_no_balance_term (dinnerFoods : List Food) (pp hc : Food)
    (tp tc tf : ℚ) (x : List ℚ) (i : Nat) (v : ℚ) (hi : i < dinnerFoods.length) :
    (mkProblem dinnerFoods pp hc tp tc tf).objective (x.set i v)
      = (mkProblem dinnerFoods pp hc tp tc tf).objective x := by
  show objectiveFn _ _ _ = objectiveFn _ _ _
  rw [objectiveFn, objectiveFn,
    getD_set_ne x i dinnerFoods.length v (by omega),
    getD_set_ne x i (dinnerFoods.length + 1) v (by omega)]

theorem c3_amended_witness :
    (mkProblem [sampleDinnerFood] (proteinPowderDefaults [sampleDinnerFood])
        (heavyCreamDefaults [sampleDinnerFood]) 10 0 0).objective ([1, 5, 7].set 0 42)
      = (mkProblem [sampleDinnerFood] (proteinPowderDefaults [sampleDinnerFood])
        (heavyCreamDefaults [sampleDinnerFood]) 10 0 0).objective [1, 5, 7] :=
  c3_amended_objective_has_no_balance_term [sampleDinnerFood] _ _ 10 0 0 [1, 5, 7] 0 42
    (by decide)

/-- Claim C4 counterexample: the solver returns 1/2000 servings of the
only dinner food (below the 0.001 threshold, with nonzero grams per
serving); the food is omitted from the breakdown, as claimed, but its
grams are also missing from the dinner and daily totals, which come back
zero - they are not counted at full precision as the claim states. -/
theorem c4_counterexample_small_serving_missing_from_totals :
    (calculate_servings c4Solver true c4Db c4Person (some c4Request)).map
        (fun r => (r.dinner, r.dinnerTotal, r.dailyTotals))
      = Except.ok ([], Triple.zero, Triple.zero)
    ∧ gramsOf c4Food ((1 : ℚ) / 2000) ≠ Triple.zero := by
  exact ⟨by decide!, by decide!⟩

/-- Claim C4 amended: a serving quantity at most 0.001 is treated as zero
and omitted from the formatted breakdown AND from the per-slot and daily
totals; only servings above the threshold are counted, at full precision.
The dinner loop keeps exactly the above-threshold entries, the totals are
the sums over those entries alone, and a supplement at or below the
threshold changes neither the totals nor the supplements list. -/
theorem c4_amended_small_servings_omitted_everywhere
    (dinnerFoods : List Food) (x : List ℚ) (tot : Triple) (supps : List SuppLine)
    (nm : String) (f : Food) (s : ℚ) :
    ((dinnerSection dinnerFoods x).2
        = (dinnerFoods.enum.filter
            (fun p => decide (zeroThreshold < x.getD p.1 0))).map
            (fun p => mkFoodLine p.2 (x.getD p.1 0))
      ∧ (dinnerSection dinnerFoods x).1.protein
          = ((dinnerFoods.enum.filter
              (fun p => decide (zeroThreshold < x.getD p.1 0))).map
              (fun p => x.getD p.1 0 * p.2.protein)).sum
      ∧ (dinnerSection dinnerFoods x).1.carbs
          = ((dinnerFoods.enum.filter
              (fun p => decide (zeroThreshold < x.getD p.1 0))).map
              (fun p => x.getD p.1 0 * p.2.carbs)).sum
      ∧ (dinnerSection dinnerFoods x).1.fats
          = ((dinnerFoods.enum.filter
              (fun p => decide (zeroThreshold < x.getD p.1 0))).map
              (fun p => x.getD p.1 0 * p.2.fats)).sum)
    ∧ (s ≤ zeroThreshold → suppSection tot supps nm f s = (tot, supps)) := by
  constructor
  · rw [dinnerSection_filtered]
    refine ⟨rfl, ?_, ?_, ?_⟩
    · rw [tripleFoldSum (fun t => t.protein) (fun a b => rfl)]
      simp [gramsOf, Triple.zero]
    · rw [tripleFoldSum (fun t => t.carbs) (fun a b => rfl)]
      simp [gramsOf, Triple.zero]
    · rw [tripleFoldSum (fun t => t.fats) (fun a b => rfl)]
      simp [gramsOf, Triple.zero]
  · intro hs
    rw [suppSection, if_neg (by exact not_lt.mpr hs)]

/-- Claim C5 counterexample: breakfast is fixed at one serving of a
50-protein food, so its actual consumed totals are (50, 0, 0); yet the
returned breakfast goal is the person's daily targets divided by three,
(30, 10, 20), not the fixed slot's actual totals as the claim states. -/
theorem c5_counterexample_fixed_slot_goal_is_third :
    (calculate_servings c5Solver true c5Db c5Person (some c5Request)).map
        (fun r => (r.breakfastGoal, r.breakfastTotal, r.dinnerGoal))
      = Except.ok (⟨30, 10, 20⟩, ⟨50, 0, 0⟩, ⟨40, 30, 60⟩)
    ∧ (⟨30, 10, 20⟩ : Triple) ≠ ⟨50, 0, 0⟩ := by
  exact ⟨by decide!, by decide!⟩

/-- Claim C5 amended: on every successful solve, the breakfast and lunch
goals are the person's daily targets divided by three (not the fixed
slots' actual consumed totals), and only the dinner goal is the remaining
budget, target minus consumed breakfast-plus-lunch grams. -/
theorem c5_amended_fixed_goals_are_thirds (solver : Problem → SolveResult)
    (db0 : List Food) (person : Person) (req : Request) (r : Results)
    (h : calculate_servings solver true db0 person (some req) = Except.ok r) :
    r.breakfastGoal = ⟨person.proteinGrams.getD 0 / 3, person.carbsGrams.getD 0 / 3,
        person.fatsGrams.getD 0 / 3⟩
    ∧ r.lunchGoal = ⟨person.proteinGrams.getD 0 / 3, person.carbsGrams.getD 0 / 3,
        person.fatsGrams.getD 0 / 3⟩
    ∧ r.dinnerGoal = ⟨person.proteinGrams.getD 0
          - (consumedTotals (parseMeal (dbWithSupps db0) req.breakfast
              ++ parseMeal (dbWithSupps db0) req.lunch)).protein,
        person.carbsGrams.getD 0
          - (consumedTotals (parseMeal (dbWithSupps db0) req.breakfast
              ++ parseMeal (dbWithSupps db0) req.lunch)).carbs,
        person.fatsGrams.getD 0
          - (consumedTotals (parseMeal (dbWithSupps db0) req.breakfast
              ++ parseMeal (dbWithSupps db0) req.lunch)).fats⟩ := by
  unfold calculate_servings at h
  simp only [Bool.not_true, if_false] at h
  split at h
  · exact absurd h (by simp)
  · split at h
    · exact absurd h (by simp)
    · split at h
      · exact absurd h (by simp)
      · split at h
        · exact absurd h (by simp)
        · split at h
          · exact absurd h (by simp)
          · split at h
            · have hr : formatResults _ _ _ _ _ _ _ _ _ _ _ _ = r := Except.ok.inj h
              subst hr
              exact ⟨rfl, rfl, rfl⟩
            · exact absurd h (by simp)

theorem c5_amended_witness :
    Except.map (fun r => (r.breakfastGoal, r.lunchGoal, r.dinnerGoal))
        (calculate_servings c5Solver true c5Db c5Person (some c5Request))
      = Except.ok (⟨30, 10, 20⟩, ⟨30, 10, 20⟩, ⟨40, 30, 60⟩) := by
  cases hE : calculate_servings c5Solver true c5Db c5Person (some c5Request) with
  | error e =>
      have hF := congrArg exceptIsOk hE
      rw [show exceptIsOk (Except.error e) = false from rfl] at hF
      exact absurd hF (by decide!)
  | ok r =>
      obtain ⟨h1, h2, h3⟩ := c5_amended_fixed_goals_are_thirds c5Solver c5Db c5Person c5Request r hE
      simp only [Except.map, h1, h2, h3]
      decide!

/-- Claim C6 (code bug): a dinner selection holding only the two
supplement foods is NOT rejected - the solver is invoked on it (the probe
solver's diagnostic comes back), and the supplements-only rejection branch
can never be reached on any input, because the list it measures always
already contains the two appended supplement rows on top of a non-empty
dinner list. -/
theorem c6_supplement_only_dinner_reaches_solver :
    calculate_servings probeSolver true c6Db c6Person (some c6Request)
      = Except.error (CalcError.optimizationFailed "probe")
    ∧ ∀ (solver : Problem → SolveResult) (b : Bool) (db0 : List Food)
        (person : Person) (body : Option Request),
        isOnlySupplementsError (calculate_servings solver b db0 person body) = false := by
  constructor
  · decide!
  · intro solver b db0 person body
    unfold calculate_servings
    split
    · rfl
    · split
      · rfl
      · match body with
        | none => rfl
        | some req =>
          dsimp only
          split
          · rfl
          · split
            · rfl
            · next hne =>
              split
              · next h2 =>
                exfalso
                have hlen := of_decide_eq_true h2
                rw [List.length_append] at hlen
                simp only [List.length_cons, List.length_nil] at hlen
                have h0 : (List.filterMap
                    (lookupActive (suppFoods db0).2.2) (parseDinnerIds req.dinner)).length = 0 := by
                  omega
                exact hne (List.isEmpty_iff_length_eq_zero.mpr h0)
              · split <;> rfl

/-- Claim C7: a person with any NULL macro target is rejected with the
missing-targets error before any solve is attempted, whatever the solver
oracle, the catalog and the request body. -/
theorem c7_null_target_rejected (solver : Problem → SolveResult) (db0 : List Food)
    (person : Person) (body : Option Request)
    (h : person.proteinGrams = none ∨ person.carbsGrams = none ∨ person.fatsGrams = none) :
    calculate_servings solver true db0 person body = Except.error CalcError.missingTargets := by
  have hm : targetsMissing person = true := by
    rcases h with h | h | h <;> simp [targetsMissing, decimalFalsy, h]
  unfold calculate_servings
  simp [hm]

theorem c7_witness :
    calculate_servings probeSolver true [] ⟨none, some 50, some 70⟩ none
      = Except.error CalcError.missingTargets :=
  c7_null_target_rejected probeSolver [] ⟨none, some 50, some 70⟩ none (Or.inl rfl)

/-- Claim C8: when the guards pass and the solver (capped at maxiter 1000)
reports failure, `calculate_servings` returns the failure result carrying
the solver's own diagnostic message; the outcome is decided by that single
solver invocation, with no retry. -/
theorem c8_failed_solve_surfaces_message (solver : Problem → SolveResult)
    (db0 : List Food) (person : Person) (req : Request)
    (hTargets : targetsMissing person = false)
    (hDinner : (parseDinnerIds req.dinner).isEmpty = false)
    (hFoods : (List.filterMap (lookupActive (suppFoods db0).2.2)
        (parseDinnerIds req.dinner)).isEmpty = false)
    (hFail : (solver (builtProblem db0 person req)).success = false) :
    calculate_servings solver true db0 person (some req)
      = Except.error (CalcError.optimizationFailed
          (solver (builtProblem db0 person req)).message)
    ∧ (builtProblem db0 person req).maxiter = 1000 := by
  constructor
  · unfold builtProblem at hFail ⊢
    have hne0 : (List.filterMap (lookupActive (suppFoods db0).2.2)
        (parseDinnerIds req.dinner)).length ≠ 0 := by
      intro h0
      rw [List.isEmpty_iff_length_eq_zero.mpr h0] at hFoods
      simp at hFoods
    have hlen2 : ((List.filterMap (lookupActive (suppFoods db0).2.2)
          (parseDinnerIds req.dinner)
        ++ [(suppFoods db0).1, (suppFoods db0).2.1]).length == 2) = false := by
      rw [List.length_append]
      simp only [List.length_cons, List.length_nil, beq_eq_false_iff_ne, ne_eq]
      omega
    unfold calculate_servings
    dsimp only
    simp only [hTargets, hDinner, hFoods, hlen2, hFail]
    simp
  · rfl

theorem c8_witness :
    calculate_servings probeSolver true c4Db c4Person (some c4Request)
      = Except.error (CalcError.optimizationFailed
          (probeSolver (builtProblem c4Db c4Person c4Request)).message)
    ∧ (builtProblem c4Db c4Person c4Request).maxiter = 1000 :=
  c8_failed_solve_surfaces_message probeSolver c4Db c4Person c4Request
    (by decide!) (by decide!) (by decide!) (by decide!)

/-- Claim C9 counterexample: a breakfast entry referencing the unknown
food id 99 is dropped without any error: the request still succeeds and
the returned breakfast breakdown and totals are empty, exactly as if the
entry had never been supplied. -/
theorem c9_counterexample_unknown_entry_dropped :
    (calculate_servings okSolver true c4Db c9Person (some c9Request)).map
        (fun r => (r.breakfast, r.breakfastTotal))
      = Except.ok ([], Triple.zero)
    ∧ exceptIsOk (calculate_servings okSolver true c4Db c9Person (some c9Request)) = true := by
  exact ⟨by decide!, by decide!⟩

/-- Claim C9 amended: pipeline-level failures (missing targets, invalid
JSON, empty or fully-invalid dinner selection, solver failure) are
reported; but a breakfast or lunch entry that does not resolve - unknown
or inactive food id, malformed servings value, or a non-dict element - is
silently dropped: the response is identical to the one for the request
without that entry. -/
theorem c9_amended_invalid_entry_silently_dropped (solver : Problem → SolveResult)
    (b : Bool) (db0 : List Food) (person : Person) (item : MealItem)
    (bf lu : List MealItem) (din : List DinnerItem)
    (hitem : parseMealItem (dbWithSupps db0) item = none) :
    calculate_servings solver b db0 person (some ⟨item :: bf, lu, din⟩)
      = calculate_servings solver b db0 person (some ⟨bf, lu, din⟩) := by
  unfold calculate_servings
  dsimp only
  rw [show parseMeal (suppFoods db0).2.2 (item :: bf)
      = parseMeal (suppFoods db0).2.2 bf by
    unfold parseMeal
    rw [List.filterMap_cons]
    rw [show parseMealItem (suppFoods db0).2.2 item = none from hitem]]

theorem c9_amended_witness :
    calculate_servings okSolver true c4Db c9Person
        (some ⟨[MealItem.entry 99 (some 1)], [], [DinnerItem.intId 5]⟩)
      = calculate_servings okSolver true c4Db c9Person
        (some ⟨[], [], [DinnerItem.intId 5]⟩) :=
  c9_amended_invalid_entry_silently_dropped okSolver true c4Db c9Person
    (MealItem.entry 99 (some 1)) [] [] [DinnerItem.intId 5] (by decide!)

/-- Claim C10: a macro target that is set but exactly zero is treated like
an unset one by the truthiness check, so the request is rejected with the
same missing-targets error and no solve is ever attempted with a zero
person-level target. -/
theorem c10_zero_target_rejected (solver : Problem → SolveResult) (db0 : List Food)
    (person : Person) (body : Option Request)
    (h : person.proteinGrams = some 0 ∨ person.carbsGrams = some 0
      ∨ person.fatsGrams = some 0) :
    calculate_servings solver true db0 person body = Except.error CalcError.missingTargets := by
  have hm : targetsMissing person = true := by
    rcases h with h | h | h <;> simp [targetsMissing, decimalFalsy, h]
  unfold calculate_servings
  simp [hm]

theorem c10_witness :
    calculate_servings probeSolver true [] ⟨some 0, some 50, some 70⟩ none
      = Except.error CalcError.missingTargets :=
  c10_zero_target_rejected probeSolver [] ⟨some 0, some 50, some 70⟩ none (Or.inl rfl)

end MealLog
